import Mathlib

set_option linter.unusedVariables false

/-!
Verification development for the questionnaire impact / reconciliation core of the
IA_Agent repository.  The definitions below are a shallow embedding of the Python
code in `src/nodes.py` (and, where the code is only imported but not shipped under
`src/`, of the specification that documents it).  External effects — the LLM text
generation service, `uuid` generation — are threaded as explicit oracle parameters,
so every function is a pure, executable Lean definition.
-/

namespace IAAgent

/-! ## Python string primitives -/

/-- Does the pattern (first argument) start the second list? -/
def charsStartWith : List Char → List Char → Bool
  | [], _ => true
  | _ :: _, [] => false
  | p :: ps, c :: cs => p == c && charsStartWith ps cs

def charsContainsGo (pat : List Char) : List Char → Bool
  | [] => pat.isEmpty
  | c :: cs => charsStartWith pat (c :: cs) || charsContainsGo pat cs

/-- Python `pat in s` substring test. -/
def containsSubstr (s pat : String) : Bool :=
  charsContainsGo pat.data s.data

/-- Python `s.startswith(pat)` / `String.startsWith`. -/
def pyStartsWith (s pat : String) : Bool :=
  charsStartWith pat.data s.data

def dropLeadingWs : List Char → List Char
  | [] => []
  | c :: cs => if c.isWhitespace then dropLeadingWs cs else c :: cs

/-- Python `s.strip()`: remove leading and trailing whitespace. -/
def pyStrip (s : String) : String :=
  String.mk ((dropLeadingWs ((dropLeadingWs s.data).reverse)).reverse)

/-- Python `s.lower()` for the ASCII strings used here. -/
def pyLower (s : String) : String :=
  String.mk (s.data.map Char.toLower)

/-- Python `s.replace(old, new)` for a single-character `old` (the only shape
the code uses). -/
def pyReplace1 (s : String) (old : Char) (new : String) : String :=
  String.mk (s.data.flatMap (fun c => if c = old then new.data else [c]))

/-- Python `s.lower().replace(' ', '_').replace('-', '_').replace('.', '')`, the
`var_name` normalisation used in `_process_question_properties`. -/
def pyNormalizeVarName (s : String) : String :=
  pyReplace1 (pyReplace1 (pyReplace1 (pyLower s) ' ' "_") '-' "_") '.' ""

def pyTitleGo : List Char → Bool → List Char
  | [], _ => []
  | c :: cs, prevAlpha =>
    (if c.isAlpha then (if prevAlpha then c.toLower else c.toUpper) else c) ::
      pyTitleGo cs c.isAlpha

/-- Python `str.title()` on the ASCII strings used here: a letter that follows a
non-letter is uppercased, every other letter is lowercased. -/
def pyTitle (s : String) : String :=
  String.mk (pyTitleGo s.data false)

/-- Identifier characters of the `\b`-delimited regex tokens used by the code and
the spec: letters, digits and underscore. -/
def isIdentChar (c : Char) : Bool :=
  c.isAlphanum || c = '_'

def identTokensGo : List Char → List Char → List String
  | [], acc => if acc = [] then [] else [String.mk acc.reverse]
  | c :: cs, acc =>
    if isIdentChar c then identTokensGo cs (c :: acc)
    else (if acc = [] then [] else [String.mk acc.reverse]) ++ identTokensGo cs []

/-- The maximal runs of identifier characters in a string: word-boundary
tokenisation, as performed by `\b...\b` regexes over the formula text. -/
def identTokens (s : String) : List String :=
  identTokensGo s.data []

/-- Python truthiness of an optional string (`None` and `""` are falsy). -/
def pyTruthyStr : Option String → Bool
  | none => false
  | some s => s != ""

/-- First-occurrence deduplication: the observable content of a Python `set`
built by repeated `add` during one iteration. -/
def setAdd {α : Type} [DecidableEq α] (l : List α) (a : α) : List α :=
  if a ∈ l then l else l ++ [a]

def dedupKeepFirst {α : Type} [DecidableEq α] (l : List α) : List α :=
  l.foldl setAdd []

/-! ## Expression Reference Scanner and Impact Classifier

`parse_formula_dependencies` and `determine_impact_level` are imported from
`nodes` by `main.py` and `api.py`, but their definitions are not present in the
source files under `src/`; both are therefore modelled from the specification. -/

/-- Modelled from the spec: `parse_formula_dependencies` (the Expression
Reference Scanner, spec section 4.1) is imported by `main.py` from `nodes` but its
definition is missing from `src/`.  It tokenizes the expression with identifier
syntax (word-boundary semantics) and returns the subset of `known_names`
appearing as whole tokens; a token `q_<suffix>` whose suffix is a known name also
contributes that base name. -/
def parse_formula_dependencies (expression : String) (known_names : List String) :
    List String :=
  let toks := identTokens expression
  known_names.filter (fun n => toks.contains n || toks.contains ("q_" ++ n))

/-- Python `not s.strip()`: the string is empty or whitespace-only. -/
def pyBlank (s : String) : Bool := pyStrip s == ""

def controlFlowKeywords : List String := ["return", "if", "while", "for"]

def hasControlFlowKeyword (formula : String) : Bool :=
  controlFlowKeywords.any (fun k => containsSubstr formula k)

/-- Modelled from the spec: `determine_impact_level` (the Impact Classifier, spec
section 4.3) is imported by `main.py` from `nodes` but its definition is missing
from `src/`.  Policy: no dependencies and a non-blank formula is critical; no
dependencies and a blank formula is low; exactly one dependency is critical when
the formula contains a control-flow keyword and moderate otherwise; two or more
dependencies are moderate. -/
def determine_impact_level (depends_on : List String) (formula : String) : String :=
  if depends_on.length = 0 then
    (if pyBlank formula then "low" else "critical")
  else if depends_on.length = 1 then
    (if hasControlFlowKeyword formula then "critical" else "moderate")
  else "moderate"

/-! ## The bounded-retry expression refinement helper

Embedding of `_refine_js_expression` (src/nodes.py lines 58-115).  The LLM call
made on attempt `i` is modelled by the oracle value `attempts i`, where `none`
means the model produced no expression (or the call raised, which the code
treats identically).  The `llm_instance` handle, prompt plumbing and the
`time.sleep(1)` inter-attempt delay have no observable effect on the returned
string and are not modelled. -/

/-- Default of the `max_retries` parameter of `_refine_js_expression`. -/
def maxRetriesDefault : Nat := 3

/-- The sentinel failure marker returned after the retry budget is exhausted. -/
def refineSentinel (max_retries : Nat) (target_entity_description : String) : String :=
  "// LLM FAILED TO RESPOND: No expression generated after " ++ toString max_retries ++
    " attempts. Review " ++ target_entity_description ++ "."

/-- The `while retries < max_retries` loop: first argument is the remaining
budget, second the index of the next attempt. -/
def refineAttemptLoop (attempts : Nat → Option String) (max_retries : Nat)
    (target_entity_description : String) : Nat → Nat → String
  | 0, _ => refineSentinel max_retries target_entity_description
  | r + 1, i =>
    match attempts i with
    | some s => pyStrip s
    | none => refineAttemptLoop attempts max_retries target_entity_description r (i + 1)

def _refine_js_expression (expression_type : String) (current_expression : Option String)
    (context_question_vars : List String) (target_entity_description : String)
    (is_mandatory_flag : Bool) (max_retries : Nat)
    (attempts : Nat → Option String) : String :=
  if expression_type == "triggering_criteria" && is_mandatory_flag then ""
  else if pyTruthyStr current_expression
      && pyStrip (current_expression.getD "") != "return true;"
      && !containsSubstr (current_expression.getD "") "// LLM FAILED"
      && !containsSubstr (current_expression.getD "") "// LLM FAILED TO RESPOND" then
    pyStrip (current_expression.getD "")
  else
    refineAttemptLoop attempts max_retries target_entity_description max_retries 0

/-! ## Data model

Shallow embedding of the loosely-typed dicts flowing through the workflow.
Keys that the code reads with `.get(...)` (and that may be absent or `None`)
become `Option` fields; `assessment_variables` of a question is modelled as a
plain list because the code defaults a missing or non-list value to `[]`. -/

structure Question where
  id : Option String := none
  variable_name : Option String := none
  text : Option String := none
  qtype : Option String := none
  formula : Option String := none
  triggering_criteria : Option String := none
  is_conditional : Option Bool := none
  assessment_variables : List String := []
  project_id : Option String := none
  original_variable_name_before_update : Option String := none
deriving DecidableEq, Inhabited

structure Section where
  title : Option String := none
  description : Option String := none
  order : Int := 0
  is_mandatory : Option Bool := none
  rationale : Option String := none
  core_questions : Option (List Question) := none
  conditional_questions : Option (List Question) := none
  triggering_criteria : Option String := none
  data_validation : Option String := none
  project_id : Option String := none
deriving DecidableEq, Inhabited

/-- An assessment variable (raw indicator) record; `vtype` embeds the `type`
key. -/
structure AssessmentVariable where
  id : String := ""
  name : String := ""
  var_name : String := ""
  priority : Int := 5
  description : String := ""
  formula : Option String := none
  vtype : String := ""
  project_id : Option String := none
deriving DecidableEq, Inhabited

structure Questionnaire where
  sections : List Section := []
  assessment_variable_calculation : Option (List (String × String)) := none
deriving DecidableEq, Inhabited

/-- The snapshot fields of `GraphState` that `analyze_questionnaire_impact`
reads or writes. -/
structure GraphState where
  project_id : Option String := none
  assessment_variables : Option (List AssessmentVariable) := none
  questionnaire : Option Questionnaire := none
  error : Option String := none
deriving DecidableEq, Inhabited

/-- Per-question external nondeterminism consumed by
`_process_question_properties`: the `uuid` draws and the per-attempt LLM
refinement results for the formula and (for conditional questions) the
triggering criteria. -/
structure QOracle where
  freshId : String := ""
  freshVar : String := ""
  dupSuffix : String := ""
  attempts : Nat → Option String := fun _ => none
  attempts2 : Nat → Option String := fun _ => none

/-- The raw JSON value returned by the external remediation call: either not a
mapping at all (`notDict`, carrying the printed type name used in the error
message) or a mapping whose `added_questions` key defaults to `[]`. -/
inductive CalcMapField where
  | notDict (tyStr : String)
  | dict (m : List (String × String))

inductive RemResponse where
  | notDict (tyStr : String)
  | dict (added_questions : List Question) (updated_calc : CalcMapField)

/-! ## `_process_question_properties` (src/nodes.py lines 158-224) -/

/-- The `variable_name` a question carries entering the uniqueness check:
generated as `q_<hex>` when missing or empty, normalised to snake case
otherwise. -/
def incomingQVarName (q : Question) (freshVar : String) : String :=
  match q.variable_name with
  | none => "q_" ++ freshVar
  | some s => if s = "" then "q_" ++ freshVar else pyNormalizeVarName s

/-- Python `question.get("id") or str(uuid.uuid4())`. -/
def incomingQBaseId (q : Question) (freshId : String) : String :=
  match q.id with
  | none => freshId
  | some s => if s = "" then freshId else s

structure ProcessedQuestion where
  q : Question
  qvars : List (Option String)
  err : Option String

def _process_question_properties (question : Question) (is_core_question : Bool)
    (all_existing_q_vars : List (Option String)) (err : Option String)
    (project_id : Option String) (orc : QOracle) : ProcessedQuestion :=
  let base_id := incomingQBaseId question orc.freshId
  let newId := match project_id with
    | some p => p ++ "_" ++ base_id
    | none => base_id
  let vname0 := incomingQVarName question orc.freshVar
  let vname :=
    if (some vname0) ∈ all_existing_q_vars
        ∧ some vname0 ≠ question.original_variable_name_before_update then
      vname0 ++ "_" ++ orc.dupSuffix
    else vname0
  let qvars1 := setAdd all_existing_q_vars (some vname)
  let qtype := match question.qtype with
    | none => "text"
    | some s => if s = "" then "text" else s
  let qtext := match question.text with
    | none => "New Question"
    | some s => if s = "" then "New Question" else s
  let refined_formula := _refine_js_expression "formula" question.formula
    (qvars1.filterMap id) ("formula for '" ++ qtext ++ "'") true maxRetriesDefault
    orc.attempts
  let err1 := if containsSubstr refined_formula "// LLM FAILED TO RESPOND" then
      some ((err.getD "") ++ "ERROR: Formula for question '" ++ qtext ++ "' is problematic. ")
    else err
  if is_core_question then
    { q := { question with
             id := some newId
             project_id := project_id
             variable_name := some vname
             qtype := some qtype
             text := some qtext
             formula := some refined_formula
             triggering_criteria := none
             is_conditional := some false }
      qvars := qvars1
      err := err1 }
  else
    let refined_criteria := _refine_js_expression "triggering_criteria"
      question.triggering_criteria (qvars1.filterMap id)
      ("conditional question '" ++ qtext ++ "'") false maxRetriesDefault orc.attempts2
    let err2 := if containsSubstr refined_criteria "// LLM FAILED TO RESPOND" then
        some ((err1.getD "") ++ "ERROR: Conditional question '" ++ qtext ++
          "' has problematic triggering_criteria. ")
      else err1
    { q := { question with
             id := some newId
             project_id := project_id
             variable_name := some vname
             qtype := some qtype
             text := some qtext
             formula := some refined_formula
             triggering_criteria := some refined_criteria
             is_conditional := some (refined_criteria != "") }
      qvars := qvars1
      err := err2 }

/-! ## Scanning phase of `analyze_questionnaire_impact` (src/nodes.py 903-1013) -/

def avVarNames (avs : List AssessmentVariable) : List String :=
  avs.map (fun v => v.var_name)

def sectionQuestions (s : Section) : List Question :=
  s.core_questions.getD [] ++ s.conditional_questions.getD []

def questionnaireQuestions (q : Questionnaire) : List Question :=
  q.sections.flatMap sectionQuestions

/-- `explicitly_covered_avs`: every `var_name` listed in some question's
`assessment_variables`. -/
def referencedAVNames (q : Questionnaire) : List String :=
  dedupKeepFirst ((questionnaireQuestions q).flatMap (fun qu => qu.assessment_variables))

/-- `referenced_but_missing_avs`: names referenced by a question but absent from
the known assessment-variable set. -/
def referencedButMissingAVs (q : Questionnaire) (avs : List AssessmentVariable) :
    List String :=
  dedupKeepFirst (((questionnaireQuestions q).flatMap (fun qu => qu.assessment_variables)).filter
    (fun n => decide (n ∉ avVarNames avs)))

/-- `all_question_vars` / `existing_question_var_names`: the `variable_name`s of
every question (a missing one contributes Python `None`). -/
def allQuestionVars (q : Questionnaire) : List (Option String) :=
  dedupKeepFirst ((questionnaireQuestions q).map (fun qu => qu.variable_name))

/-- `uncovered_assessment_vars_by_question_impact`. -/
def uncoveredAVs (q : Questionnaire) (avs : List AssessmentVariable) :
    List AssessmentVariable :=
  avs.filter (fun v => decide (v.var_name ∉ referencedAVNames q))

/-- The `var_name`s present in `av_varname_map` /
`existing_assessment_var_names_in_state` after the placeholder loop. -/
def avNamesWithPlaceholders (avs : List AssessmentVariable) (q : Questionnaire) :
    List String :=
  avVarNames avs ++ referencedButMissingAVs q avs

/-- The placeholder assessment variable synthesized for a question-referenced
name missing from the known set (src/nodes.py lines 969-979). -/
def placeholderAV (id name : String) (pid : Option String) : AssessmentVariable :=
  { id := id,
    name := pyTitle (pyReplace1 name '_' " "),
    var_name := name,
    priority := 5,
    description := "Placeholder for " ++ name ++
      " referenced by a question but not initially defined.",
    formula := none,
    vtype := "text",
    project_id := pid }

def placeholdersGo (pid : Option String) (phId : Nat → String) :
    Nat → List String → List AssessmentVariable
  | _, [] => []
  | k, n :: ns => placeholderAV (phId k) n pid :: placeholdersGo pid phId (k + 1) ns

def scanPlaceholders (q : Questionnaire) (avs : List AssessmentVariable)
    (pid : Option String) (phId : Nat → String) : List AssessmentVariable :=
  placeholdersGo pid phId 0 (referencedButMissingAVs q avs)

/-- The `re.findall` of `\b(q_[a-zA-Z0-9_]+)\b` over a formula: maximal
identifier tokens that start with `q_` and continue with at least one more
character. -/
def qRefTokens (formula : String) : List String :=
  (identTokens formula).filter (fun t => pyStartsWith t "q_" && decide (2 < t.data.length))

/-- `problemmatic_calculation_vars`: calculation-map entries whose variable
still exists and whose formula mentions a `q_`-token naming no existing
question. -/
def problematicCalculationVars (q : Questionnaire) (avs : List AssessmentVariable) :
    List String :=
  (q.assessment_variable_calculation.getD []).filterMap (fun nf =>
    if nf.1 ∈ avNamesWithPlaceholders avs q
        ∧ (qRefTokens nf.2).any (fun t => decide ((some t) ∉ allQuestionVars q)) = true then
      some nf.1
    else none)

/-- `vars_to_address`, the deduplicated union driving remediation. -/
def varsToAddressOf (avs : List AssessmentVariable) (q : Questionnaire) : List String :=
  dedupKeepFirst (
    ((uncoveredAVs q avs).filterMap (fun v =>
        if v.var_name ∈ avNamesWithPlaceholders avs q then some v.var_name else none))
    ++ problematicCalculationVars q avs
    ++ referencedButMissingAVs q avs)

/-- Lookup in `av_varname_map` (a Python dict comprehension: the last entry with
a given `var_name` wins). -/
def lookupAVLast (avs : List AssessmentVariable) (n : String) :
    Option AssessmentVariable :=
  (avs.filter (fun v => v.var_name == n)).getLast?

/-! ## Remediation phase (src/nodes.py lines 1015-1139) -/

def warnNotCovered : String :=
  "Warning: Some assessment variables are not fully covered by questionnaire questions or have problematic calculations."

def warnInvalidCalcMap : String :=
  "Warning: LLM remediation generated invalid calculation map. Defaulting to empty."

def warnRemediationAttempted : String :=
  "Warning: Some assessment variables were flagged and an attempt was made to add questions. Review updated questionnaire and calculation map."

def remediationFormatError (tyStr : String) : String :=
  "LLM remediation output format error: Expected dict, got " ++ tyStr ++ "."

def remediationExceptionError (msg : String) : String :=
  "Error during questionnaire impact remediation: " ++ msg

/-- Python `dict.update` on an insertion-ordered association list: existing keys
are overwritten in place, new keys are appended. -/
def dictSet (m : List (String × String)) (kv : String × String) :
    List (String × String) :=
  if kv.1 ∈ m.map Prod.fst then m.map (fun p => if p.1 = kv.1 then kv else p)
  else m ++ [kv]

def dictUpdate (m updates : List (String × String)) : List (String × String) :=
  updates.foldl dictSet m

inductive TargetChoice where
  | existing : Nat → TargetChoice
  | synthesized : Section → TargetChoice
deriving DecidableEq

/-- Python `max([s["order"] for s in sections]) + 1 if sections else 1`. -/
def nextSectionOrder (sections : List Section) : Int :=
  match sections.map (fun s => s.order) with
  | [] => 1
  | o :: os => os.foldl max o + 1

/-- The synthesized "Remediation Questions" section (src/nodes.py 1095-1106). -/
def remediationSection (order : Int) (pid : Option String) : Section :=
  { title := some "Remediation Questions",
    description := some "Questions added to cover previously uncaptured assessment variables.",
    order := order,
    is_mandatory := some true,
    rationale := some "Automatically generated to ensure data completeness.",
    core_questions := some [],
    conditional_questions := some [],
    triggering_criteria := none,
    data_validation := some "return true;",
    project_id := pid }

/-- `section.get("is_mandatory", False) and section.get("core_questions") is not
None`. -/
def mandatoryWithCore (s : Section) : Bool :=
  (s.is_mandatory.getD false) && s.core_questions.isSome

/-- Target-section selection for remediation questions (src/nodes.py 1084-1108):
the first mandatory section that has a `core_questions` list, else the first
existing section, else a synthesized "Remediation Questions" section at the next
order number. -/
def selectTargetSection (sections : List Section) (pid : Option String) : TargetChoice :=
  match sections.findIdx? mandatoryWithCore with
  | some i => .existing i
  | none =>
    match sections with
    | [] => .synthesized (remediationSection (nextSectionOrder sections) pid)
    | _ :: _ => .existing 0

/-- Python stable insertion keeping equal keys in encounter order. -/
def insertSectionByOrder : List Section → Section → List Section
  | [], s => [s]
  | t :: ts, s =>
    if t.order ≤ s.order then t :: insertSectionByOrder ts s else s :: t :: ts

/-- `list.sort(key=lambda x: x["order"])`: a stable sort by `order`. -/
def sortSectionsByOrder (l : List Section) : List Section :=
  l.foldl insertSectionByOrder []

/-- The remediation loop over `added_questions`: each question is processed
(with the growing uniqueness set and error string threaded through) and
collected in order; `qorc k` supplies the oracle of the question at index `k`. -/
def processQuestionsGo (pid : Option String) (qorc : Nat → QOracle) :
    Nat → List Question → List (Option String) → Option String →
    List Question × List (Option String) × Option String
  | _, [], qvars, err => ([], qvars, err)
  | k, qd :: rest, qvars, err =>
    let r := _process_question_properties qd true qvars err pid (qorc k)
    let t := processQuestionsGo pid qorc (k + 1) rest r.qvars r.err
    (r.q :: t.1, t.2)

/-- Handling of one external remediation response (src/nodes.py 1056-1127),
entered with `err1` already containing the not-covered warning.  The
`AttributeError` branch models the uncaught Python exception raised by
`None.append(...)` when the chosen target section has no `core_questions` list;
partial mutations made before it are preserved, as in the source. -/
def remediateWithResponse (st : GraphState) (q1 : Questionnaire)
    (avs2 : List AssessmentVariable) (err1 : String) (resp : RemResponse)
    (qorc : Nat → QOracle) : GraphState :=
  match resp with
  | .notDict tyStr =>
    { st with
      assessment_variables := some avs2
      questionnaire := some q1
      error := some (err1 ++ remediationFormatError tyStr) }
  | .dict added_questions updated_calc =>
    let ucalc := match updated_calc with
      | .dict m => m
      | .notDict _ => []
    let err2 := match updated_calc with
      | .dict _ => err1
      | .notDict _ => err1 ++ warnInvalidCalcMap
    match added_questions with
    | [] =>
      let m2 := dictUpdate (q1.assessment_variable_calculation.getD []) ucalc
      let q2 := if ucalc = [] then q1
        else { q1 with assessment_variable_calculation := some m2 }
      { st with
        assessment_variables := some avs2
        questionnaire := some q2
        error := some (err2 ++ warnRemediationAttempted) }
    | q0 :: _ =>
      match selectTargetSection q1.sections st.project_id with
      | .existing i =>
        let t := (q1.sections.get? i).getD default
        match t.core_questions with
        | none =>
          let r := _process_question_properties q0 true (allQuestionVars q1)
            (some err2) st.project_id (qorc 0)
          { st with
            assessment_variables := some avs2
            questionnaire := some q1
            error := some ((r.err.getD "") ++ remediationExceptionError
              "AttributeError on core_questions append") }
        | some core =>
          let pr := processQuestionsGo st.project_id qorc 0 added_questions
            (allQuestionVars q1) (some err2)
          let t2 := { t with core_questions := some (core ++ pr.1) }
          let q2 := { q1 with sections := q1.sections.set i t2 }
          let m2 := dictUpdate (q2.assessment_variable_calculation.getD []) ucalc
          let q3 := if ucalc = [] then q2
            else { q2 with assessment_variable_calculation := some m2 }
          { st with
            assessment_variables := some avs2
            questionnaire := some q3
            error := some ((pr.2.2.getD "") ++ warnRemediationAttempted) }
      | .synthesized s =>
        let pr := processQuestionsGo st.project_id qorc 0 added_questions
          (allQuestionVars q1) (some err2)
        let s2 := { s with core_questions := some ((s.core_questions.getD []) ++ pr.1) }
        let q2 := { q1 with sections := sortSectionsByOrder (q1.sections ++ [s2]) }
        let m2 := dictUpdate (q2.assessment_variable_calculation.getD []) ucalc
        let q3 := if ucalc = [] then q2
          else { q2 with assessment_variable_calculation := some m2 }
        { st with
          assessment_variables := some avs2
          questionnaire := some q3
          error := some ((pr.2.2.getD "") ++ warnRemediationAttempted) }

/-- The in-place normalisation of `questionnaire["assessment_variable_calculation"]`
(src/nodes.py lines 923-925): a missing or `None` map becomes `{}`. -/
def normalizeCalcMap (q : Questionnaire) : Questionnaire :=
  { q with assessment_variable_calculation := some (q.assessment_variable_calculation.getD []) }

/-- One pass of the Questionnaire Coverage Reconciler,
`analyze_questionnaire_impact` (src/nodes.py lines 903-1139).  `resp` is the
external remediation response (consulted only when remediation is reached),
`phId k` the `uuid` drawn for the `k`-th placeholder variable, and `qorc k` the
oracle of the `k`-th processed remediation question. -/
def analyze_questionnaire_impact (st : GraphState) (resp : RemResponse)
    (phId : Nat → String) (qorc : Nat → QOracle) : GraphState :=
  let avs := st.assessment_variables.getD []
  match st.questionnaire with
  | none => { st with assessment_variables := some avs }
  | some q0 =>
    let q1 := normalizeCalcMap q0
    if avs = [] then
      { st with assessment_variables := some avs, questionnaire := some q1 }
    else if q1.sections = [] then
      { st with assessment_variables := some avs, questionnaire := some q1 }
    else
      let avs2 := avs ++ scanPlaceholders q1 avs st.project_id phId
      if varsToAddressOf avs q1 = [] then
        { st with
          assessment_variables := some avs2
          questionnaire := some q1
          error := none }
      else
        let err1 := (st.error.getD "") ++ warnNotCovered
        if (varsToAddressOf avs q1).filterMap (lookupAVLast avs2) = [] then
          { st with
            assessment_variables := some avs2
            questionnaire := some q1
            error := some err1 }
        else
          remediateWithResponse st q1 avs2 err1 resp qorc

/-! ## Section removal in `modify_questionnaire_llm` (src/nodes.py 692-700) -/

/-- Processing of `removed_section_orders`: drop the removed sections, sort the
survivors by `order`, and renumber them `1..n`. -/
def handleSectionRemovals (sections : List Section) (removed_section_orders : List Int) :
    List Section :=
  let kept := sections.filter (fun s => decide (s.order ∉ removed_section_orders))
  let sorted := sortSectionsByOrder kept
  (sorted.enum).map (fun p => { p.2 with order := (p.1 : Int) + 1 })

/-! ## Concrete fixtures used by witnesses and counterexamples -/

def fixAV : AssessmentVariable :=
  { id := "a1", name := "A", var_name := "a", priority := 5, description := "d",
    formula := none, vtype := "text", project_id := some "p" }

def fixQuestionCovers : Question :=
  { id := some "q1", variable_name := some "q_a", text := some "t",
    qtype := some "text", assessment_variables := ["a"] }

def fixQuestionGhost : Question :=
  { id := some "q1", variable_name := some "q_a", text := some "t",
    qtype := some "text", assessment_variables := ["a", "ghost_var"] }

def fixSection (qs : List Question) : Section :=
  { title := some "S", order := 1, is_mandatory := some true,
    core_questions := some qs, conditional_questions := some [] }

def fixCleanQn : Questionnaire :=
  { sections := [fixSection [fixQuestionCovers]],
    assessment_variable_calculation := some [] }

def fixGhostQn : Questionnaire :=
  { sections := [fixSection [fixQuestionGhost]],
    assessment_variable_calculation := some [] }

def fixCleanState : GraphState :=
  { project_id := some "p", assessment_variables := some [fixAV],
    questionnaire := some fixCleanQn, error := some "prior " }

def fixGhostState : GraphState :=
  { project_id := some "p", assessment_variables := some [fixAV],
    questionnaire := some fixGhostQn, error := some "prior " }

def fixEmptyAVState : GraphState :=
  { project_id := some "p", assessment_variables := some [],
    questionnaire := some fixGhostQn, error := some "prior " }

/-- A remediation question whose `variable_name` duplicates the existing
question's `q_a`. -/
def fixDupQuestion : Question :=
  { id := some "nq", variable_name := some "q_a", text := some "NT",
    qtype := some "int", formula := some "raw", assessment_variables := ["ghost_var"] }

def fixNewQuestion : Question :=
  { id := some "nq", variable_name := some "q_new", text := some "NT",
    qtype := some "int", formula := some "raw", assessment_variables := ["ghost_var"] }

def fixPhId : Nat → String := fun k => "ph" ++ toString k

def fixQOracle : Nat → QOracle :=
  fun _ => { freshId := "fid", freshVar := "fv", dupSuffix := "sfx",
             attempts := fun _ => some "return q_x;",
             attempts2 := fun _ => some "return q_x;" }

/-! ## Helper lemmas -/

theorem strAppend_three (a b c : String) : a ++ b ++ c = a ++ (b ++ c) :=
  String.append_assoc a b c

theorem mem_foldl_setAdd {α : Type} [DecidableEq α] (a : α) :
    ∀ (l acc : List α), a ∈ l.foldl setAdd acc ↔ a ∈ acc ∨ a ∈ l := by
  intro l
  induction l with
  | nil => intro acc; simp
  | cons x xs ih =>
    intro acc
    rw [List.foldl_cons, ih]
    unfold setAdd
    by_cases hx : x ∈ acc
    · rw [if_pos hx]
      simp only [List.mem_cons]
      constructor
      · rintro (h | h)
        · exact Or.inl h
        · exact Or.inr (Or.inr h)
      · rintro (h | h | h)
        · exact Or.inl h
        · exact Or.inl (h ▸ hx)
        · exact Or.inr h
    · rw [if_neg hx]
      simp only [List.mem_append, List.mem_singleton, List.mem_cons,
        List.not_mem_nil, or_false]
      tauto

theorem mem_dedupKeepFirst {α : Type} [DecidableEq α] (a : α) (l : List α) :
    a ∈ dedupKeepFirst l ↔ a ∈ l := by
  unfold dedupKeepFirst
  rw [mem_foldl_setAdd]
  simp

theorem refineAttemptLoop_agree (m : Nat) (d : String) :
    ∀ (r i : Nat) (a1 a2 : Nat → Option String),
      (∀ j, j < i + r → a1 j = a2 j) →
      refineAttemptLoop a1 m d r i = refineAttemptLoop a2 m d r i := by
  intro r
  induction r with
  | zero => intro i a1 a2 h; rfl
  | succ r ih =>
    intro i a1 a2 h
    have hi : a1 i = a2 i := h i (by omega)
    unfold refineAttemptLoop
    rw [hi]
    cases a2 i with
    | some s => rfl
    | none => exact ih (i + 1) a1 a2 (fun j hj => h j (by omega))

theorem refineAttemptLoop_all_none (m : Nat) (d : String) (a : Nat → Option String) :
    ∀ (r i : Nat), (∀ j, j < i + r → a j = none) →
      refineAttemptLoop a m d r i = refineSentinel m d := by
  intro r
  induction r with
  | zero => intro i h; rfl
  | succ r ih =>
    intro i h
    have hi : a i = none := h i (by omega)
    unfold refineAttemptLoop
    rw [hi]
    exact ih (i + 1) (fun j hj => h j (by omega))

theorem filterMap_ne_nil_of_forall {α β : Type} (f : α → Option β) :
    ∀ (l : List α), l ≠ [] → (∀ x ∈ l, f x ≠ none) → l.filterMap f ≠ [] := by
  intro l hl hf
  cases l with
  | nil => exact absurd rfl hl
  | cons a l =>
    have ha := hf a (List.mem_cons_self a l)
    cases h : f a with
    | none => exact absurd h ha
    | some b => simp [List.filterMap_cons, h]

theorem placeholdersGo_map_var_name (pid : Option String) (phId : Nat → String) :
    ∀ (ns : List String) (k : Nat),
      (placeholdersGo pid phId k ns).map (fun v => v.var_name) = ns := by
  intro ns
  induction ns with
  | nil => intro k; rfl
  | cons n ns ih => intro k; simp [placeholdersGo, placeholderAV, ih]

theorem avVarNames_append_scanPlaceholders (avs : List AssessmentVariable)
    (q : Questionnaire) (pid : Option String) (phId : Nat → String) :
    avVarNames (avs ++ scanPlaceholders q avs pid phId) = avNamesWithPlaceholders avs q := by
  unfold avVarNames scanPlaceholders avNamesWithPlaceholders
  rw [List.map_append]
  rw [placeholdersGo_map_var_name]
  rfl

theorem lookupAVLast_ne_none_of_mem_names (l : List AssessmentVariable) (n : String)
    (h : n ∈ avVarNames l) : lookupAVLast l n ≠ none := by
  unfold avVarNames at h
  rw [List.mem_map] at h
  obtain ⟨v, hv, hvn⟩ := h
  unfold lookupAVLast
  intro hnone
  rw [List.getLast?_eq_none_iff] at hnone
  have hvmem : v ∈ l.filter (fun v => v.var_name == n) := by
    rw [List.mem_filter]
    exact ⟨hv, by simp [hvn]⟩
  rw [hnone] at hvmem
  exact List.not_mem_nil v hvmem

theorem mem_names_of_mem_varsToAddress (avs : List AssessmentVariable)
    (q : Questionnaire) (n : String) (h : n ∈ varsToAddressOf avs q) :
    n ∈ avNamesWithPlaceholders avs q := by
  unfold varsToAddressOf at h
  rw [mem_dedupKeepFirst, List.mem_append, List.mem_append] at h
  rcases h with (h | h) | h
  · rw [List.mem_filterMap] at h
    obtain ⟨v, hv, hsome⟩ := h
    by_cases hc : v.var_name ∈ avNamesWithPlaceholders avs q
    · rw [if_pos hc] at hsome
      cases hsome
      exact hc
    · rw [if_neg hc] at hsome
      cases hsome
  · unfold problematicCalculationVars at h
    rw [List.mem_filterMap] at h
    obtain ⟨nf, hnf, hsome⟩ := h
    by_cases hc : nf.1 ∈ avNamesWithPlaceholders avs q ∧
        (qRefTokens nf.2).any (fun t => decide ((some t) ∉ allQuestionVars q)) = true
    · rw [if_pos hc] at hsome
      cases hsome
      exact hc.1
    · rw [if_neg hc] at hsome
      cases hsome
  · exact List.mem_append_right _ h

theorem normalizeCalcMap_sections (q : Questionnaire) :
    (normalizeCalcMap q).sections = q.sections := rfl

theorem remediateWithResponse_assessment_variables (st : GraphState) (q1 : Questionnaire)
    (avs2 : List AssessmentVariable) (err1 : String) (resp : RemResponse)
    (qorc : Nat → QOracle) :
    (remediateWithResponse st q1 avs2 err1 resp qorc).assessment_variables = some avs2 := by
  cases resp with
  | notDict ty => simp only [remediateWithResponse]
  | dict qs cF =>
    cases hsel : selectTargetSection q1.sections st.project_id with
    | existing i =>
      cases hcore : ((q1.sections.get? i).getD default).core_questions with
      | none =>
        cases cF <;> cases qs <;>
          simp only [remediateWithResponse, hsel, hcore]
      | some core =>
        cases cF <;> cases qs <;>
          simp only [remediateWithResponse, hsel, hcore]
    | synthesized s =>
      cases cF <;> cases qs <;>
        simp only [remediateWithResponse, hsel]

/-- The one pass, under the hypotheses that make it reach the scanning phase,
reduced to its clean branch or its remediation branch. -/
theorem analyze_questionnaire_impact_spec (st : GraphState)
    (avs : List AssessmentVariable) (q0 : Questionnaire) (resp : RemResponse)
    (phId : Nat → String) (qorc : Nat → QOracle)
    (hav : st.assessment_variables = some avs) (hne : avs ≠ [])
    (hq : st.questionnaire = some q0) (hsec : q0.sections ≠ []) :
    analyze_questionnaire_impact st resp phId qorc =
      if varsToAddressOf avs q0 = [] then
        { st with
          assessment_variables := some (avs ++ scanPlaceholders q0 avs st.project_id phId)
          questionnaire := some (normalizeCalcMap q0)
          error := none }
      else
        remediateWithResponse st (normalizeCalcMap q0)
          (avs ++ scanPlaceholders q0 avs st.project_id phId)
          ((st.error.getD "") ++ warnNotCovered) resp qorc := by
  obtain ⟨pid, av, qn, er⟩ := st
  simp only [GraphState.assessment_variables] at hav
  simp only [GraphState.questionnaire] at hq
  subst hav
  subst hq
  unfold analyze_questionnaire_impact
  simp only [Option.getD_some]
  rw [if_neg hne]
  rw [if_neg (show ¬((normalizeCalcMap q0).sections = []) from hsec)]
  by_cases hvta : varsToAddressOf avs q0 = []
  · rw [if_pos (show varsToAddressOf avs (normalizeCalcMap q0) = [] from hvta), if_pos hvta]
    rfl
  · rw [if_neg (show ¬(varsToAddressOf avs (normalizeCalcMap q0) = []) from hvta),
      if_neg hvta]
    rw [if_neg ?info]
    · rfl
    case info =>
      apply filterMap_ne_nil_of_forall
      · exact hvta
      · intro x hx
        apply lookupAVLast_ne_none_of_mem_names
        rw [avVarNames_append_scanPlaceholders]
        exact mem_names_of_mem_varsToAddress avs (normalizeCalcMap q0) x hx

theorem processQuestionsGo_length_fst (pid : Option String) (qorc : Nat → QOracle) :
    ∀ (qs : List Question) (k : Nat) (qv : List (Option String)) (e : Option String),
      ((processQuestionsGo pid qorc k qs qv e).1).length = qs.length := by
  intro qs
  induction qs with
  | nil => intro k qv e; rfl
  | cons qd rest ih =>
    intro k qv e
    simp only [processQuestionsGo, List.length_cons]
    rw [ih]

theorem process_question_err_getD (question : Question) (c : Bool)
    (qvars : List (Option String)) (err : Option String) (pid : Option String)
    (orc : QOracle) :
    ∃ t, ((_process_question_properties question c qvars err pid orc).err).getD "" =
      (err.getD "") ++ t := by
  cases c <;>
    (try simp only [_process_question_properties, Bool.false_eq_true, if_true, if_false,
      ite_true, ite_false]) <;>
    (try split_ifs) <;>
    (try simp only [Option.getD_some]) <;>
    first
    | exact ⟨"", (String.append_empty _).symm⟩
    | exact ⟨_, rfl⟩
    | exact ⟨_, by (try simp only [String.append_assoc]); (try rfl)⟩

theorem processQuestionsGo_err_getD (pid : Option String) (qorc : Nat → QOracle) :
    ∀ (qs : List Question) (k : Nat) (qv : List (Option String)) (e : Option String),
      ∃ t, ((processQuestionsGo pid qorc k qs qv e).2.2).getD "" = (e.getD "") ++ t := by
  intro qs
  induction qs with
  | nil => intro k qv e; exact ⟨"", (String.append_empty _).symm⟩
  | cons qd rest ih =>
    intro k qv e
    obtain ⟨t1, h1⟩ := process_question_err_getD qd true qv e pid (qorc k)
    obtain ⟨t2, h2⟩ :=
      ih (k + 1) (_process_question_properties qd true qv e pid (qorc k)).qvars
        (_process_question_properties qd true qv e pid (qorc k)).err
    refine ⟨t1 ++ t2, ?_⟩
    simp only [processQuestionsGo]
    rw [h2, h1, String.append_assoc]

theorem placeholdersGo_mem (pid : Option String) (phId : Nat → String) :
    ∀ (ns : List String) (k : Nat) (name : String), name ∈ ns →
      ∃ j, placeholderAV (phId j) name pid ∈ placeholdersGo pid phId k ns := by
  intro ns
  induction ns with
  | nil => intro k name h; exact absurd h (List.not_mem_nil name)
  | cons n rest ih =>
    intro k name h
    rcases List.mem_cons.mp h with h | h
    · subst h
      exact ⟨k, List.mem_cons_self _ _⟩
    · obtain ⟨j, hj⟩ := ih (k + 1) name h
      exact ⟨j, List.mem_cons_of_mem _ hj⟩

/-! ## Claim C1 -/

/-- C1 counterexample: `fixGhostState` satisfies the claim's hypotheses — every
known raw indicator is referenced by some question's `assessment_variables` and
no calculation formula references a missing question variable — yet one pass
does not leave the state unchanged with a null error: a question also
references the unknown name `ghost_var`, so the pass appends a placeholder (the
raw-indicator list changes) and records a non-null error. -/
theorem reconciler_clean_pass_noop_cex :
    (∀ v ∈ [fixAV], v.var_name ∈ referencedAVNames fixGhostQn)
    ∧ problematicCalculationVars fixGhostQn [fixAV] = []
    ∧ fixGhostState.assessment_variables = some [fixAV]
    ∧ fixGhostState.questionnaire = some fixGhostQn
    ∧ (analyze_questionnaire_impact fixGhostState (.notDict "c") fixPhId
        fixQOracle).error ≠ none
    ∧ (analyze_questionnaire_impact fixGhostState (.notDict "c") fixPhId
        fixQOracle).assessment_variables ≠ some [fixAV] := by
  refine ⟨by decide, by decide, rfl, rfl, by decide, by decide⟩

/-- C1 (amended): one pass returns the state unchanged with the error cleared
to null, provided additionally that the known raw-indicator list is non-empty,
the questionnaire has at least one section and a present calculation map, and —
beyond the claim's two conditions — every `var_name` referenced by a question
is already a known raw indicator (otherwise the pass mutates the list by
placeholder creation, see the counterexample). -/
theorem reconciler_clean_pass_noop_amended (st : GraphState)
    (avs : List AssessmentVariable) (secs : List Section)
    (m : List (String × String)) (resp : RemResponse)
    (phId : Nat → String) (qorc : Nat → QOracle)
    (hav : st.assessment_variables = some avs) (hne : avs ≠ [])
    (hq : st.questionnaire =
      some { sections := secs, assessment_variable_calculation := some m })
    (hsec : secs ≠ [])
    (hcover : ∀ v ∈ avs, v.var_name ∈
      referencedAVNames { sections := secs, assessment_variable_calculation := some m })
    (hmissing : referencedButMissingAVs
      { sections := secs, assessment_variable_calculation := some m } avs = [])
    (hprob : problematicCalculationVars
      { sections := secs, assessment_variable_calculation := some m } avs = []) :
    analyze_questionnaire_impact st resp phId qorc = { st with error := none } := by
  set q0 : Questionnaire :=
    { sections := secs, assessment_variable_calculation := some m } with hq0
  have huncov : uncoveredAVs q0 avs = [] := by
    unfold uncoveredAVs
    apply List.filter_eq_nil_iff.mpr
    intro v hv
    simp [hcover v hv]
  have hvta : varsToAddressOf avs q0 = [] := by
    unfold varsToAddressOf
    rw [huncov, hprob, hmissing]
    rfl
  have hph : scanPlaceholders q0 avs st.project_id phId = [] := by
    unfold scanPlaceholders
    rw [hmissing]
    rfl
  rw [analyze_questionnaire_impact_spec st avs q0 resp phId qorc hav hne hq hsec]
  rw [if_pos hvta, hph, List.append_nil]
  have hnorm : normalizeCalcMap q0 = q0 := rfl
  rw [hnorm]
  obtain ⟨pid, av, qn, er⟩ := st
  simp only [GraphState.assessment_variables] at hav
  simp only [GraphState.questionnaire] at hq
  subst hav
  subst hq
  rfl

/-- Witness for the amended C1: a perfectly covered state comes back untouched
with its previously recorded error cleared. -/
theorem reconciler_clean_pass_noop_amended_witness :
    analyze_questionnaire_impact fixCleanState (.notDict "c") fixPhId fixQOracle =
      { fixCleanState with error := none } :=
  reconciler_clean_pass_noop_amended fixCleanState [fixAV]
    [fixSection [fixQuestionCovers]] [] (.notDict "c") fixPhId fixQOracle
    rfl (by decide) rfl (by decide) (by decide) (by decide) (by decide)

/-! ## Claim C2 -/

/-- C2 counterexample: with an empty known raw-indicator list, a question
referencing the unknown `ghost_var` does NOT get a placeholder — the pass
returns early ("No assessment variables to analyze impact") without mutating
anything, so no placeholder with `var_name = "ghost_var"` exists afterwards. -/
theorem reconciler_placeholder_creation_cex :
    "ghost_var" ∈ (questionnaireQuestions fixGhostQn).flatMap
      (fun qu => qu.assessment_variables)
    ∧ "ghost_var" ∉ avVarNames ([] : List AssessmentVariable)
    ∧ fixEmptyAVState.assessment_variables = some []
    ∧ fixEmptyAVState.questionnaire = some fixGhostQn
    ∧ (analyze_questionnaire_impact fixEmptyAVState (.notDict "c") fixPhId
        fixQOracle).assessment_variables = some []
    ∧ ¬ ∃ av ∈ ((analyze_questionnaire_impact fixEmptyAVState (.notDict "c") fixPhId
        fixQOracle).assessment_variables.getD []), av.var_name = "ghost_var" := by
  refine ⟨by decide, by decide, rfl, rfl, by decide, by decide⟩

/-- C2 (amended): provided the known raw-indicator list is non-empty (the pass
exits early on an empty list, see the counterexample), every `var_name` listed
in a question's `assessment_variables` but absent from the known set gets a
placeholder appended: title-cased name with underscores replaced by spaces,
null formula and the marker description — whatever the external response. -/
theorem reconciler_placeholder_creation_amended (st : GraphState)
    (avs : List AssessmentVariable) (q0 : Questionnaire)
    (qu : Question) (name : String) (resp : RemResponse)
    (phId : Nat → String) (qorc : Nat → QOracle)
    (hav : st.assessment_variables = some avs) (hne : avs ≠ [])
    (hq : st.questionnaire = some q0)
    (hqu : qu ∈ questionnaireQuestions q0)
    (hname : name ∈ qu.assessment_variables)
    (hmiss : name ∉ avVarNames avs) :
    ∃ av ∈ ((analyze_questionnaire_impact st resp phId qorc).assessment_variables.getD []),
      av.var_name = name ∧ av.name = pyTitle (pyReplace1 name '_' " ") ∧
      av.formula = none ∧
      av.description = "Placeholder for " ++ name ++
        " referenced by a question but not initially defined." := by
  have hsec : q0.sections ≠ [] := by
    intro h
    rw [questionnaireQuestions, h] at hqu
    exact absurd hqu (List.not_mem_nil qu)
  have havs : (analyze_questionnaire_impact st resp phId qorc).assessment_variables =
      some (avs ++ scanPlaceholders q0 avs st.project_id phId) := by
    rw [analyze_questionnaire_impact_spec st avs q0 resp phId qorc hav hne hq hsec]
    by_cases hvta : varsToAddressOf avs q0 = []
    · rw [if_pos hvta]
    · rw [if_neg hvta]
      exact remediateWithResponse_assessment_variables _ _ _ _ _ _
  rw [havs, Option.getD_some]
  have hmem : name ∈ referencedButMissingAVs q0 avs := by
    unfold referencedButMissingAVs
    rw [mem_dedupKeepFirst, List.mem_filter]
    constructor
    · exact List.mem_flatMap.mpr ⟨qu, hqu, hname⟩
    · simpa using hmiss
  obtain ⟨j, hj⟩ := placeholdersGo_mem st.project_id phId
    (referencedButMissingAVs q0 avs) 0 name hmem
  exact ⟨placeholderAV (phId j) name st.project_id,
    List.mem_append_right _ hj, rfl, rfl, rfl, rfl⟩

/-- Witness for the amended C2: `ghost_var` gets its "Ghost Var" placeholder. -/
theorem reconciler_placeholder_creation_amended_witness :
    ∃ av ∈ ((analyze_questionnaire_impact fixGhostState (.notDict "c") fixPhId
        fixQOracle).assessment_variables.getD []),
      av.var_name = "ghost_var" ∧ av.name = pyTitle (pyReplace1 "ghost_var" '_' " ") ∧
      av.formula = none ∧
      av.description = "Placeholder for " ++ "ghost_var" ++
        " referenced by a question but not initially defined." :=
  reconciler_placeholder_creation_amended fixGhostState [fixAV] fixGhostQn
    fixQuestionGhost "ghost_var" (.notDict "c") fixPhId fixQOracle
    rfl (by decide) rfl (by decide) (by decide) (by decide)

/-! ## Claim C3 -/

/-- C3: a non-mapping external remediation response makes the pass record an
explicit format-error string and return early: the returned questionnaire
keeps exactly its pre-remediation sections (no questions added) and its
normalised calculation map (no updates merged). -/
theorem remediation_malformed_response_aborts (st : GraphState)
    (avs : List AssessmentVariable) (q0 : Questionnaire) (ty : String)
    (phId : Nat → String) (qorc : Nat → QOracle)
    (hav : st.assessment_variables = some avs) (hne : avs ≠ [])
    (hq : st.questionnaire = some q0) (hsec : q0.sections ≠ [])
    (hvta : varsToAddressOf avs q0 ≠ []) :
    (analyze_questionnaire_impact st (.notDict ty) phId qorc).questionnaire =
      some (normalizeCalcMap q0)
    ∧ (analyze_questionnaire_impact st (.notDict ty) phId qorc).error =
      some ((st.error.getD "") ++ warnNotCovered ++ remediationFormatError ty) := by
  rw [analyze_questionnaire_impact_spec st avs q0 _ phId qorc hav hne hq hsec]
  rw [if_neg hvta]
  constructor
  · simp only [remediateWithResponse]
  · simp only [remediateWithResponse]

/-- Witness for C3: the ghost state with a malformed response. -/
theorem remediation_malformed_response_aborts_witness :
    (analyze_questionnaire_impact fixGhostState (.notDict "c") fixPhId
        fixQOracle).questionnaire = some (normalizeCalcMap fixGhostQn)
    ∧ (analyze_questionnaire_impact fixGhostState (.notDict "c") fixPhId
        fixQOracle).error =
      some ((fixGhostState.error.getD "") ++ warnNotCovered ++ remediationFormatError "c") :=
  remediation_malformed_response_aborts fixGhostState [fixAV] fixGhostQn "c"
    fixPhId fixQOracle rfl (by decide) rfl (by decide) (by decide)

/-! ## Claim C4 -/

/-- C4 counterexample: a remediation question whose `variable_name` duplicates
an existing question's `q_a` is NOT rejected/skipped: the pass appends it to
the target section after renaming it with a fresh suffix, so the section ends
the pass with two questions, `q_a` and `q_a_sfx`. -/
theorem duplicate_varname_rejection_cex :
    fixQuestionGhost.variable_name = some "q_a"
    ∧ fixDupQuestion.variable_name = some "q_a"
    ∧ (analyze_questionnaire_impact fixGhostState (.dict [fixDupQuestion] (.dict []))
        fixPhId fixQOracle).questionnaire.map
        (fun qn => ((qn.sections.headD default).core_questions.getD []).map
          (fun qu => qu.variable_name)) =
      some [some "q_a", some "q_a_sfx"] := by
  refine ⟨rfl, rfl, by decide⟩

/-- C4 (amended): a newly added remediation question whose (normalised)
`variable_name` duplicates an existing question's is not skipped: it is still
appended to the target section, after its `variable_name` is made unique by
appending an underscore and a fresh suffix; the existing questions are kept
unchanged ahead of it (never overwritten). -/
theorem duplicate_varname_suffix_append_amended (st : GraphState)
    (avs : List AssessmentVariable) (q0 : Questionnaire)
    (qd : Question) (cF : CalcMapField)
    (phId : Nat → String) (qorc : Nat → QOracle) (i : Nat) (t : Section)
    (core : List Question)
    (hav : st.assessment_variables = some avs) (hne : avs ≠ [])
    (hq : st.questionnaire = some q0) (hsec : q0.sections ≠ [])
    (hvta : varsToAddressOf avs q0 ≠ [])
    (hsel : selectTargetSection q0.sections st.project_id = .existing i)
    (hget : q0.sections.get? i = some t)
    (hcore : t.core_questions = some core)
    (hdup : some (incomingQVarName qd (qorc 0).freshVar) ∈ allQuestionVars q0)
    (horig : qd.original_variable_name_before_update = none) :
    ∃ q1 : Question,
      (analyze_questionnaire_impact st (.dict [qd] cF) phId qorc).questionnaire.map
        Questionnaire.sections =
        some (q0.sections.set i { t with core_questions := some (core ++ [q1]) })
      ∧ q1.variable_name =
        some (incomingQVarName qd (qorc 0).freshVar ++ "_" ++ (qorc 0).dupSuffix) := by
  rw [analyze_questionnaire_impact_spec st avs q0 _ phId qorc hav hne hq hsec]
  rw [if_neg hvta]
  have hcond : some (incomingQVarName qd (qorc 0).freshVar) ∈
        allQuestionVars (normalizeCalcMap q0) ∧
      some (incomingQVarName qd (qorc 0).freshVar) ≠
        qd.original_variable_name_before_update := by
    refine ⟨hdup, ?_⟩
    rw [horig]
    exact Option.some_ne_none _
  cases cF with
  | notDict ty =>
    refine ⟨(_process_question_properties qd true (allQuestionVars (normalizeCalcMap q0))
        (some (st.error.getD "" ++ warnNotCovered ++ warnInvalidCalcMap))
        st.project_id (qorc 0)).q, ?_, ?_⟩
    · simp only [remediateWithResponse, normalizeCalcMap_sections, hsel, hget,
        Option.getD_some, hcore, processQuestionsGo]
      simp only [Option.map_some', apply_ite Questionnaire.sections, ite_self]
    · simp only [_process_question_properties]
      rw [if_pos hcond]
      simp only [if_true]
  | dict m =>
    refine ⟨(_process_question_properties qd true (allQuestionVars (normalizeCalcMap q0))
        (some (st.error.getD "" ++ warnNotCovered))
        st.project_id (qorc 0)).q, ?_, ?_⟩
    · simp only [remediateWithResponse, normalizeCalcMap_sections, hsel, hget,
        Option.getD_some, hcore, processQuestionsGo]
      simp only [Option.map_some', apply_ite Questionnaire.sections, ite_self]
    · simp only [_process_question_properties]
      rw [if_pos hcond]
      simp only [if_true]

/-- Witness for the amended C4: the duplicate `q_a` question is appended with
the suffixed name `q_a_sfx` after the preserved existing question. -/
theorem duplicate_varname_suffix_append_amended_witness :
    ∃ q1 : Question,
      (analyze_questionnaire_impact fixGhostState (.dict [fixDupQuestion] (.dict []))
        fixPhId fixQOracle).questionnaire.map Questionnaire.sections =
        some (fixGhostQn.sections.set 0
          { fixSection [fixQuestionGhost] with
            core_questions := some ([fixQuestionGhost] ++ [q1]) })
      ∧ q1.variable_name =
        some (incomingQVarName fixDupQuestion (fixQOracle 0).freshVar ++ "_" ++
          (fixQOracle 0).dupSuffix) :=
  duplicate_varname_suffix_append_amended fixGhostState [fixAV] fixGhostQn
    fixDupQuestion (.dict []) fixPhId fixQOracle 0 (fixSection [fixQuestionGhost])
    [fixQuestionGhost] rfl (by decide) rfl (by decide) (by decide) (by decide)
    (by decide) (by decide) (by decide) rfl

/-! ## Claim C5 -/

/-- C5: remediation questions are appended to the `core_questions` of exactly
one target section, chosen as the first mandatory section that has a
`core_questions` list, else the first existing section, else a synthesized
"Remediation Questions" section at the next order number (`nextSectionOrder`
of no sections being 1); the chosen section's previous questions are kept as a
prefix and all other sections are untouched (`List.set` of the one index). -/
theorem remediation_target_section_selection :
    (∀ (sections : List Section) (pid : Option String) (i : Nat),
        sections.findIdx? mandatoryWithCore = some i →
        selectTargetSection sections pid = .existing i)
    ∧ (∀ (sections : List Section) (pid : Option String),
        sections.findIdx? mandatoryWithCore = none → sections ≠ [] →
        selectTargetSection sections pid = .existing 0)
    ∧ (∀ pid : Option String,
        selectTargetSection [] pid =
          .synthesized (remediationSection (nextSectionOrder []) pid))
    ∧ (∀ (st : GraphState) (avs : List AssessmentVariable) (q0 : Questionnaire)
        (qd : Question) (rest : List Question) (cF : CalcMapField)
        (phId : Nat → String) (qorc : Nat → QOracle) (i : Nat) (t : Section)
        (core : List Question),
        st.assessment_variables = some avs → avs ≠ [] →
        st.questionnaire = some q0 → q0.sections ≠ [] →
        varsToAddressOf avs q0 ≠ [] →
        selectTargetSection q0.sections st.project_id = .existing i →
        q0.sections.get? i = some t →
        t.core_questions = some core →
        ∃ pq : List Question, pq.length = (qd :: rest).length ∧
          (analyze_questionnaire_impact st (.dict (qd :: rest) cF) phId qorc).questionnaire.map
            Questionnaire.sections =
          some (q0.sections.set i { t with core_questions := some (core ++ pq) })) := by
  refine ⟨?_, ?_, ?_, ?_⟩
  · intro sections pid i h
    unfold selectTargetSection
    rw [h]
  · intro sections pid h hne
    unfold selectTargetSection
    rw [h]
    cases sections with
    | nil => exact absurd rfl hne
    | cons s rest => rfl
  · intro pid
    rfl
  · intro st avs q0 qd rest cF phId qorc i t core hav hne hq hsec hvta hsel hget hcore
    rw [analyze_questionnaire_impact_spec st avs q0 _ phId qorc hav hne hq hsec]
    rw [if_neg hvta]
    cases cF with
    | notDict ty =>
      simp only [remediateWithResponse, normalizeCalcMap_sections, hsel, hget,
        Option.getD_some, hcore]
      exact ⟨_, processQuestionsGo_length_fst _ _ _ _ _ _, rfl⟩
    | dict m =>
      simp only [remediateWithResponse, normalizeCalcMap_sections, hsel, hget,
        Option.getD_some, hcore]
      refine ⟨(processQuestionsGo st.project_id qorc 0 (qd :: rest)
          (allQuestionVars (normalizeCalcMap q0))
          (some (st.error.getD "" ++ warnNotCovered))).1,
        processQuestionsGo_length_fst _ _ _ _ _ _, ?_⟩
      simp only [Option.map_some', apply_ite Questionnaire.sections, ite_self]

/-- Witness for C5: one new question lands in the single mandatory section of
the ghost state, after its existing question. -/
theorem remediation_target_section_selection_witness :
    ∃ pq : List Question, pq.length = ([fixNewQuestion] : List Question).length ∧
      (analyze_questionnaire_impact fixGhostState (.dict [fixNewQuestion] (.dict []))
        fixPhId fixQOracle).questionnaire.map Questionnaire.sections =
      some (fixGhostQn.sections.set 0
        { fixSection [fixQuestionGhost] with
          core_questions := some ([fixQuestionGhost] ++ pq) }) :=
  remediation_target_section_selection.2.2.2 fixGhostState [fixAV] fixGhostQn
    fixNewQuestion [] (.dict []) fixPhId fixQOracle 0 (fixSection [fixQuestionGhost])
    [fixQuestionGhost] rfl (by decide) rfl (by decide) (by decide) (by decide)
    (by decide) rfl

/-! ## Claim C10 -/

/-- C10: when the response is a mapping but its
`updated_assessment_variable_calculation` is not, the pass does not abort: the
invalid map is replaced by an empty one (so the questionnaire's calculation map
is left unmerged), the defaulting warning is appended into the error string,
and the `added_questions` of the same response are still inserted into the
target section. -/
theorem remediation_invalid_calc_map_degrades (st : GraphState)
    (avs : List AssessmentVariable) (q0 : Questionnaire)
    (qd : Question) (rest : List Question) (ty : String)
    (phId : Nat → String) (qorc : Nat → QOracle) (i : Nat) (t : Section)
    (core : List Question)
    (hav : st.assessment_variables = some avs) (hne : avs ≠ [])
    (hq : st.questionnaire = some q0) (hsec : q0.sections ≠ [])
    (hvta : varsToAddressOf avs q0 ≠ [])
    (hsel : selectTargetSection q0.sections st.project_id = .existing i)
    (hget : q0.sections.get? i = some t)
    (hcore : t.core_questions = some core) :
    (∃ pq : List Question, pq.length = (qd :: rest).length ∧
      (analyze_questionnaire_impact st (.dict (qd :: rest) (.notDict ty)) phId
          qorc).questionnaire =
        some { sections := q0.sections.set i { t with core_questions := some (core ++ pq) }
               assessment_variable_calculation :=
                 some (q0.assessment_variable_calculation.getD []) })
    ∧ ∃ post,
        (analyze_questionnaire_impact st (.dict (qd :: rest) (.notDict ty)) phId
          qorc).error =
        some ((st.error.getD "") ++ warnNotCovered ++ warnInvalidCalcMap ++ post) := by
  rw [analyze_questionnaire_impact_spec st avs q0 _ phId qorc hav hne hq hsec]
  rw [if_neg hvta]
  simp only [remediateWithResponse, normalizeCalcMap_sections, hsel, hget,
    Option.getD_some, hcore]
  constructor
  · refine ⟨(processQuestionsGo st.project_id qorc 0 (qd :: rest)
      (allQuestionVars (normalizeCalcMap q0))
      (some (st.error.getD "" ++ warnNotCovered ++ warnInvalidCalcMap))).1,
      processQuestionsGo_length_fst _ _ _ _ _ _, ?_⟩
    rfl
  · obtain ⟨tpost, hpost⟩ := processQuestionsGo_err_getD st.project_id qorc (qd :: rest) 0
      (allQuestionVars (normalizeCalcMap q0))
      (some (st.error.getD "" ++ warnNotCovered ++ warnInvalidCalcMap))
    refine ⟨tpost ++ warnRemediationAttempted, ?_⟩
    rw [hpost]
    simp only [Option.getD_some, String.append_assoc]

/-- Witness for C10: the bad-calculation-map warning appears and the question
is still inserted. -/
theorem remediation_invalid_calc_map_degrades_witness :
    (∃ pq : List Question, pq.length = ([fixNewQuestion] : List Question).length ∧
      (analyze_questionnaire_impact fixGhostState
          (.dict [fixNewQuestion] (.notDict "list")) fixPhId fixQOracle).questionnaire =
        some { sections := fixGhostQn.sections.set 0
                 { fixSection [fixQuestionGhost] with
                   core_questions := some ([fixQuestionGhost] ++ pq) }
               assessment_variable_calculation :=
                 some (fixGhostQn.assessment_variable_calculation.getD []) })
    ∧ ∃ post,
        (analyze_questionnaire_impact fixGhostState
          (.dict [fixNewQuestion] (.notDict "list")) fixPhId fixQOracle).error =
        some ((fixGhostState.error.getD "") ++ warnNotCovered ++ warnInvalidCalcMap ++ post) :=
  remediation_invalid_calc_map_degrades fixGhostState [fixAV] fixGhostQn
    fixNewQuestion [] "list" fixPhId fixQOracle 0 (fixSection [fixQuestionGhost])
    [fixQuestionGhost] rfl (by decide) rfl (by decide) (by decide) (by decide)
    (by decide) rfl

/-! ## Claim C6 -/

/-- C6: `_refine_js_expression` makes at most `max_retries` attempts (default 3):
its result depends only on the outcomes of attempts with index below
`max_retries`; and if every attempt yields no expression it returns the sentinel
string (which starts with "// LLM FAILED TO RESPOND") rather than raising.
The fixed inter-attempt delay is a real-time property outside the embedding. -/
theorem refine_js_expression_retry_cap_sentinel :
    maxRetriesDefault = 3
    ∧ (∀ (et desc : String) (curr : Option String) (cv : List String) (mand : Bool)
        (maxR : Nat) (a1 a2 : Nat → Option String),
        (∀ i, i < maxR → a1 i = a2 i) →
        _refine_js_expression et curr cv desc mand maxR a1 =
          _refine_js_expression et curr cv desc mand maxR a2)
    ∧ (∀ (et desc : String) (cv : List String) (maxR : Nat) (a : Nat → Option String),
        (∀ i, i < maxR → a i = none) → et ≠ "triggering_criteria" →
        _refine_js_expression et none cv desc true maxR a = refineSentinel maxR desc)
    ∧ (∀ (maxR : Nat) (desc : String),
        ∃ rest, refineSentinel maxR desc = "// LLM FAILED TO RESPOND" ++ rest) := by
  refine ⟨rfl, ?_, ?_, ?_⟩
  · intro et desc curr cv mand maxR a1 a2 h
    unfold _refine_js_expression
    by_cases h1 : (et == "triggering_criteria" && mand) = true
    · rw [if_pos h1, if_pos h1]
    · rw [if_neg h1, if_neg h1]
      by_cases h2 : (pyTruthyStr curr && pyStrip (curr.getD "") != "return true;"
          && !containsSubstr (curr.getD "") "// LLM FAILED"
          && !containsSubstr (curr.getD "") "// LLM FAILED TO RESPOND") = true
      · rw [if_pos h2, if_pos h2]
      · rw [if_neg h2, if_neg h2]
        exact refineAttemptLoop_agree maxR desc maxR 0 a1 a2 (fun j hj => h j (by omega))
  · intro et desc cv maxR a h het
    unfold _refine_js_expression
    have h1 : (et == "triggering_criteria" && true) = false := by
      simp [het]
    rw [if_neg (by simp [h1, het])]
    rw [if_neg (by simp [pyTruthyStr])]
    exact refineAttemptLoop_all_none maxR desc a maxR 0 (fun j hj => h j (by omega))
  · intro maxR desc
    refine ⟨": No expression generated after " ++ toString maxR ++
      " attempts. Review " ++ desc ++ ".", ?_⟩
    unfold refineSentinel
    have hsplit : ("// LLM FAILED TO RESPOND: No expression generated after " : String) =
        "// LLM FAILED TO RESPOND" ++ ": No expression generated after " := by decide
    rw [hsplit]
    simp only [String.append_assoc]

/-- Witness for C6: with every attempt failing, the helper returns exactly the
sentinel failure string. -/
theorem refine_js_expression_retry_cap_sentinel_witness :
    _refine_js_expression "formula" none [] "x" true 3 (fun _ => none) =
      refineSentinel 3 "x" :=
  refine_js_expression_retry_cap_sentinel.2.2.1 "formula" "x" [] 3 (fun _ => none)
    (fun _ _ => rfl) (by decide)

/-! ## Claim C7 -/

/-- C7: after the section-removal step of `modify_questionnaire_llm`, the
surviving sections carry order values `1..n` in ascending order — unique and
contiguous. -/
theorem section_removal_renumbers_contiguously (sections : List Section)
    (removed_section_orders : List Int) :
    (handleSectionRemovals sections removed_section_orders).map (fun s => s.order) =
      (List.range (handleSectionRemovals sections removed_section_orders).length).map
        (fun i : Nat => (i : Int) + 1) := by
  unfold handleSectionRemovals
  rw [List.map_map, List.length_map, List.enum_length]
  have h : ((fun s : Section => s.order) ∘
      (fun p : Nat × Section => { p.2 with order := (p.1 : Int) + 1 })) =
      (fun i : Nat => (i : Int) + 1) ∘ Prod.fst := by
    funext p; rfl
  rw [h, ← List.map_map, List.enum_map_fst]

/-! ## Claim C8 -/

/-- C8: the Impact Classifier is total into critical/moderate/low and follows
the exact documented policy on dependency count, formula blankness and
control-flow keywords. -/
theorem determine_impact_level_total_policy :
    ∀ (d : List String) (f : String),
      (determine_impact_level d f = "critical" ∨ determine_impact_level d f = "moderate" ∨
        determine_impact_level d f = "low")
      ∧ (d = [] → pyBlank f = false → determine_impact_level d f = "critical")
      ∧ (d = [] → pyBlank f = true → determine_impact_level d f = "low")
      ∧ (d.length = 1 → hasControlFlowKeyword f = true → determine_impact_level d f = "critical")
      ∧ (d.length = 1 → hasControlFlowKeyword f = false → determine_impact_level d f = "moderate")
      ∧ (2 ≤ d.length → determine_impact_level d f = "moderate") := by
  intro d f
  unfold determine_impact_level
  rcases d with _ | ⟨a, d⟩
  · cases h : pyBlank f <;> simp [h]
  · rcases d with _ | ⟨b, d⟩
    · cases h : hasControlFlowKeyword f <;> simp [h]
    · simp

/-- Witness for C8: the classifier policy at two concrete inputs. -/
theorem determine_impact_level_total_policy_witness :
    determine_impact_level [] "return 5;" = "critical" ∧
    determine_impact_level ["x"] "x_plus_one" = "moderate" :=
  ⟨(determine_impact_level_total_policy [] "return 5;").2.1 rfl (by decide),
   (determine_impact_level_total_policy ["x"] "x_plus_one").2.2.2.2.1 rfl (by decide)⟩

/-! ## Claim C9 -/

/-- C9: the Expression Reference Scanner returns a subset of the known names
(whole-token matching), and the empty expression scans to the empty set. -/
theorem parse_formula_dependencies_subset_empty :
    (∀ (e : String) (N : List String) (x : String),
        x ∈ parse_formula_dependencies e N → x ∈ N)
    ∧ (∀ N : List String, parse_formula_dependencies "" N = []) := by
  constructor
  · intro e N x hx
    exact List.mem_of_mem_filter hx
  · intro N
    unfold parse_formula_dependencies
    simp [identTokens, identTokensGo]

/-- Witness for C9: a scanned name is indeed one of the known names. -/
theorem parse_formula_dependencies_subset_empty_witness :
    "daily_sales" ∈ ["daily_sales", "operating_days", "other"] :=
  parse_formula_dependencies_subset_empty.1 "return daily_sales * operating_days;"
    ["daily_sales", "operating_days", "other"] "daily_sales" (by decide)

end IAAgent
